import Mathlib

/-!
# Verification of the dynamic-route-53-dns update pipeline

Shallow embedding of the DDNS update decision pipeline of the
`dynamic-route-53-dns` repository.  The repository contains two parallel
implementations of the core pipeline:

* variant **V1**: `internal/service/update.go` (`ProcessUpdate`), together
  with the package-level database functions of `internal/database/ddns.go`
  and `route53.UpdateRecord` of the package-level route53 client;
* variant **V2**: the `UpdateService.ProcessUpdate` of `unnamed/part_003`,
  together with the `database.Client` methods of `unnamed/part_000` and the
  `Route53Client` methods of `internal/route53/records.go`.

External collaborators (DynamoDB, Route 53, bcrypt) are modelled as
explicit inputs: booleans for the success of each remote call, a
`String → String → Bool` oracle for `bcrypt.CompareHashAndPassword`, and
lists recording the DNS mutation calls that the pipeline issues.
-/

namespace DDNS

/-! ## Go `net.ParseIP`

Faithful embedding of Go's IP-literal parser (`net/ip.go`): `dtoi`, `xtoi`,
`parseIPv4` (with the modern rejection of leading zeros), `parseIPv6`, the
top-level `ParseIP` dispatch on the first `.` or `:`, and `IP.To4`.
Addresses are byte lists (4 or 16 entries). -/

def digitVal (c : Char) : Option Nat :=
  if '0' ≤ c ∧ c ≤ '9' then some (c.toNat - '0'.toNat) else none

def hexVal (c : Char) : Option Nat :=
  if '0' ≤ c ∧ c ≤ '9' then some (c.toNat - '0'.toNat)
  else if 'a' ≤ c ∧ c ≤ 'f' then some (c.toNat - 'a'.toNat + 10)
  else if 'A' ≤ c ∧ c ≤ 'F' then some (c.toNat - 'A'.toNat + 10)
  else none

/-- Go's `dtoi`: read a decimal prefix, giving (value, chars consumed, ok).
Overflow (`n >= 0xFFFFFF`) makes it fail. -/
def dtoiAux : List Char → Nat → Nat → Nat × Nat × Bool
  | [], n, i => if i = 0 then (0, 0, false) else (n, i, true)
  | c :: rest, n, i =>
    match digitVal c with
    | none => if i = 0 then (0, 0, false) else (n, i, true)
    | some d =>
      let n' := n * 10 + d
      if n' ≥ 0xFFFFFF then (0xFFFFFF, i, false) else dtoiAux rest n' (i + 1)

def dtoi (s : List Char) : Nat × Nat × Bool := dtoiAux s 0 0

/-- Go's `xtoi`: read a hexadecimal prefix, giving (value, chars consumed, ok). -/
def xtoiAux : List Char → Nat → Nat → Nat × Nat × Bool
  | [], n, i => if i = 0 then (0, i, false) else (n, i, true)
  | c :: rest, n, i =>
    match hexVal c with
    | none => if i = 0 then (0, i, false) else (n, i, true)
    | some d =>
      let n' := n * 16 + d
      if n' ≥ 0xFFFFFF then (0, i, false) else xtoiAux rest n' (i + 1)

def xtoi (s : List Char) : Nat × Nat × Bool := xtoiAux s 0 0

/-- Go's `parseIPv4` field loop: exactly four dot-separated decimal fields,
each `≤ 255`, no leading zeros, input fully consumed.  Returns the four
bytes. -/
def parseIPv4Aux : Nat → List Char → Bool → List Nat → Option (List Nat)
  | 0, s, _, acc => if s = [] then some acc.reverse else none
  | fuel + 1, s, isFirst, acc =>
    if s = [] then none
    else
      match (if isFirst then some s else
             match s with
             | '.' :: r => some r
             | _ => none) with
      | none => none
      | some s2 =>
        let r := dtoi s2
        if r.2.2 = false then none
        else if r.1 > 0xFF then none
        else if r.2.1 > 1 ∧ s2.head? = some '0' then none
        else parseIPv4Aux fuel (s2.drop r.2.1) false (r.1 :: acc)

def parseIPv4Go (s : List Char) : Option (List Nat) :=
  parseIPv4Aux 4 s true []

/-- The 12-byte prefix Go prepends to IPv4 addresses (`v4InV6Prefix`). -/
def v4InV6Prefix : List Nat := [0, 0, 0, 0, 0, 0, 0, 0, 0, 0, 0xff, 0xff]

/-- One pass of the group loop of Go's `parseIPv6`.  Carries the bytes
accumulated so far and the ellipsis position; returns the unconsumed
input, the bytes and the ellipsis position when the loop exits. -/
def parseIPv6Loop : Nat → List Char → List Nat → Option Nat →
    Option (List Char × List Nat × Option Nat)
  | fuel, s, acc, ell =>
    if acc.length ≥ 16 then some (s, acc, ell)
    else
      match fuel with
      | 0 => none
      | fuel + 1 =>
        let r := xtoi s
        if r.2.2 = false then none
        else if r.1 > 0xFFFF then none
        else if r.2.1 < s.length ∧ s.get? r.2.1 = some '.' then
          -- trailing IPv4 group
          if ell = none ∧ acc.length ≠ 12 then none
          else if acc.length + 4 > 16 then none
          else
            match parseIPv4Go s with
            | none => none
            | some ip4 => some ([], acc ++ ip4, ell)
        else
          let acc2 := acc ++ [r.1 / 256, r.1 % 256]
          let s2 := s.drop r.2.1
          if s2 = [] then some ([], acc2, ell)
          else if s2.head? ≠ some ':' ∨ s2.length = 1 then none
          else
            let s3 := s2.drop 1
            if s3.head? = some ':' then
              if ell.isSome then none
              else
                let s4 := s3.drop 1
                if s4 = [] then some ([], acc2, some acc2.length)
                else parseIPv6Loop fuel s4 acc2 (some acc2.length)
            else parseIPv6Loop fuel s3 acc2 ell

/-- Go's `parseIPv6`: 16-byte result, supporting `::`, embedded trailing
IPv4 groups, and the requirement that an ellipsis stands for at least one
zero group. -/
def parseIPv6Go (s : List Char) : Option (List Nat) :=
  match s with
  | ':' :: ':' :: rest =>
    if rest = [] then some (List.replicate 16 0)
    else
      match parseIPv6Loop 9 rest [] (some 0) with
      | none => none
      | some (restS, acc, ellF) =>
        if restS ≠ [] then none
        else if acc.length < 16 then
          match ellF with
          | none => none
          | some e =>
            some (acc.take e ++ List.replicate (16 - acc.length) 0 ++ acc.drop e)
        else if ellF.isSome then none
        else some acc
  | _ =>
    match parseIPv6Loop 9 s [] none with
    | none => none
    | some (restS, acc, ellF) =>
      if restS ≠ [] then none
      else if acc.length < 16 then
        match ellF with
        | none => none
        | some e =>
          some (acc.take e ++ List.replicate (16 - acc.length) 0 ++ acc.drop e)
      else if ellF.isSome then none
      else some acc

/-- Go's `net.ParseIP`: dispatch on the first `.` or `:` of the input. -/
def parseIPGo (s : String) : Option (List Nat) :=
  let cs := s.data
  match cs.find? (fun c => c = '.' ∨ c = ':') with
  | some '.' => (parseIPv4Go cs).map (fun b => v4InV6Prefix ++ b)
  | some ':' => parseIPv6Go cs
  | _ => none

/-- Go's `IP.To4`: the 4-byte form of an IPv4 or IPv4-in-IPv6 address. -/
def ipTo4 (ip : List Nat) : Option (List Nat) :=
  if ip.length = 4 then some ip
  else if ip.length = 16 ∧ ip.take 10 = List.replicate 10 0 ∧
      ip.get? 10 = some 0xff ∧ ip.get? 11 = some 0xff then
    some (ip.drop 12)
  else none

/-- `service.ValidateIP` of `internal/service/update.go`:
`net.ParseIP(ip) != nil`. -/
def goValidateIP (ip : String) : Bool :=
  (parseIPGo ip).isSome

/-- `isValidIP` of `unnamed/part_003`: validity plus IPv6-ness
(`parsed.To4() == nil`). -/
def goIsValidIP (ip : String) : Bool × Bool :=
  match parseIPGo ip with
  | none => (false, false)
  | some p => if (ipTo4 p).isNone then (true, true) else (true, false)

/-! ## Data model

`DDNSRecord` of `internal/database/ddns.go` / `unnamed/part_000` (the
fields the pipeline reads and writes; timestamps are naturals). -/

structure DDNSRecord where
  hostname : String
  zoneID : String
  zoneName : String
  ttl : Int
  updateTokenHash : String
  currentIP : String
  enabled : Bool
  lastUpdated : Nat
deriving Repr, DecidableEq

/-- An update-log item as it ends up stored in DynamoDB.  `sk` is the
timestamp sort key (Go formats it as RFC3339Nano; the numeric timestamp is
kept here). -/
structure UpdateLogEntry where
  pk : String
  sk : Nat
  previousIP : String
  newIP : String
  sourceIP : String
  userAgent : String
  status : String
deriving Repr, DecidableEq

/-- DNS mutation calls the pipelines issue, recorded at the route53
call sites: `route53.UpdateRecord` (package-level, variant V1),
`Route53Client.UpsertRecord` and `Route53Client.DeleteRecord`
(methods, variant V2), with the arguments passed there. -/
inductive DNSCall where
  | updateRecord (zoneID hostname ip : String) (ttl : Int)
  | upsertRecord (zoneID name recordType value : String) (ttl : Int)
  | deleteRecord (zoneID name recordType : String)
deriving Repr, DecidableEq

/-! ## Variant V1: `internal/service/update.go` `ProcessUpdate` -/

/-- Environment for one V1 request: the bcrypt oracle
(`VerifyToken`), the three results of
`database.IncrementRateLimit(ctx, "ddns:"+hostname, 60, 3600)`, the
success of `route53.UpdateRecord`, of `database.UpdateDDNSRecord` and of
`database.CreateUpdateLog`, and the current time. -/
structure V1Env where
  verify : String → String → Bool
  rlCount : Int
  rlExceeded : Bool
  rlErr : Bool
  r53Ok : Bool
  dbOk : Bool
  logOk : Bool
  now : Nat

structure V1Result where
  success : Bool
  code : String
  ip : String
  dnsCalls : List DNSCall
  stored : Option DDNSRecord
  logs : List UpdateLogEntry
deriving Repr, DecidableEq

/-- `database.CreateUpdateLog` of `internal/database/ddns.go` (V1): it
overwrites the partition key with `"LOG#" + log.NewIP` and uses the
timestamp as sort key, then stores the item. -/
def createUpdateLogV1 (log : UpdateLogEntry) (store : List UpdateLogEntry) :
    List UpdateLogEntry :=
  store ++ [{ log with pk := "LOG#" ++ log.newIP }]

/-- Insert into a list kept in descending `sk` order. -/
def insertDescBySk (x : UpdateLogEntry) : List UpdateLogEntry → List UpdateLogEntry
  | [] => [x]
  | y :: ys => if x.sk ≥ y.sk then x :: y :: ys else y :: insertDescBySk x ys

/-- Sort by `sk` descending (DynamoDB `ScanIndexForward: false`). -/
def sortDescBySk : List UpdateLogEntry → List UpdateLogEntry
  | [] => []
  | x :: xs => insertDescBySk x (sortDescBySk xs)

/-- `database.GetUpdateLogs` of `internal/database/ddns.go`: query the
partition `"LOG#" + hostname`, most recent first, limited. -/
def getUpdateLogsV1 (hostname : String) (limit : Nat)
    (store : List UpdateLogEntry) : List UpdateLogEntry :=
  (sortDescBySk (store.filter (fun l => l.pk = "LOG#" ++ hostname))).take limit

/-- `UpdateService.ProcessUpdate` of `internal/service/update.go`.
Order of checks follows the source: IP format, record lookup, token,
enabled flag, rate limit (error then exceeded), no-change, Route 53
upsert, database write (warn-only on failure), update log (warn-only). -/
def processUpdateV1 (env : V1Env) (record? : Option DDNSRecord)
    (hostname token ip sourceIP userAgent : String) : V1Result :=
  if ¬ goValidateIP ip then
    ⟨false, "911", "", [], record?, []⟩
  else
    match record? with
    | none => ⟨false, "nohost", "", [], none, []⟩
    | some record =>
      if ¬ env.verify token record.updateTokenHash then
        ⟨false, "badauth", "", [], some record, []⟩
      else if ¬ record.enabled then
        ⟨false, "nohost", "", [], some record, []⟩
      else if env.rlErr then
        ⟨false, "911", "", [], some record, []⟩
      else if env.rlExceeded then
        ⟨false, "abuse", "", [], some record, []⟩
      else
        let previousIP := record.currentIP
        if previousIP = ip then
          ⟨true, "nochg", ip, [], some record, []⟩
        else
          let call := DNSCall.updateRecord record.zoneID hostname ip record.ttl
          if ¬ env.r53Ok then
            ⟨false, "911", "", [call], some record, []⟩
          else
            let stored := if env.dbOk then
                some { record with currentIP := ip, lastUpdated := env.now }
              else some record
            let log : UpdateLogEntry :=
              { pk := "LOG#" ++ hostname, sk := env.now,
                previousIP := previousIP, newIP := ip, sourceIP := sourceIP,
                userAgent := userAgent, status := "success" }
            let logs := if env.logOk then createUpdateLogV1 log [] else []
            ⟨true, "good", ip, [call], stored, logs⟩

/-! ## Variant V2: `unnamed/part_003` `ProcessUpdate` -/

/-- Environment for one V2 request: the bcrypt oracle, the success of
`Route53Client.UpsertRecord` and of `Client.UpdateDDNSRecord`, and the
current time.  `Route53Client.DeleteRecord` and the log writes are
best-effort in the source (results discarded). -/
structure V2Env where
  verify : String → String → Bool
  upsertOk : Bool
  dbOk : Bool
  now : Nat

structure V2Result where
  response : String
  ok : Bool
  dnsCalls : List DNSCall
  stored : Option DDNSRecord
  logs : List UpdateLogEntry
deriving Repr, DecidableEq

/-- `logUpdate` of `unnamed/part_003` combined with
`database.NewUpdateLog` and the `Client.CreateUpdateLog` of
`unnamed/part_000`: partition key `"LOG#" + hostname`, timestamp sort
key. -/
def v2Log (hostname : String) (now : Nat)
    (previousIP newIP sourceIP userAgent status : String) : UpdateLogEntry :=
  { pk := "LOG#" ++ hostname, sk := now, previousIP := previousIP,
    newIP := newIP, sourceIP := sourceIP, userAgent := userAgent,
    status := status }

/-- `UpdateService.ProcessUpdate` of `unnamed/part_003`.
Order of checks follows the source: record lookup, enabled flag, bcrypt
token, candidate resolution (`myip` else source), IP format,
anti-spoofing, no-change, type-transition delete, upsert, database
write, success log. -/
def processUpdateV2 (env : V2Env) (record? : Option DDNSRecord)
    (hostname providedIP sourceIP token userAgent : String) : V2Result :=
  match record? with
  | none => ⟨"nohost", false, [], none, []⟩
  | some record =>
    if ¬ record.enabled then
      ⟨"nohost", false, [], some record, []⟩
    else if ¬ env.verify token record.updateTokenHash then
      ⟨"badauth", false, [], some record,
        [v2Log hostname env.now record.currentIP "" sourceIP userAgent "badauth"]⟩
    else
      let ipToUse := if providedIP ≠ "" then providedIP else sourceIP
      if ¬ (goIsValidIP ipToUse).1 then
        ⟨"nohost", false, [], some record,
          [v2Log hostname env.now record.currentIP ipToUse sourceIP userAgent "invalid_ip"]⟩
      else if providedIP ≠ "" ∧ providedIP ≠ sourceIP then
        ⟨"abuse", false, [], some record,
          [v2Log hostname env.now record.currentIP providedIP sourceIP userAgent "ip_mismatch"]⟩
      else if record.currentIP = ipToUse then
        ⟨"nochg " ++ ipToUse, true, [], some record,
          [v2Log hostname env.now record.currentIP ipToUse sourceIP userAgent "nochg"]⟩
      else
        let recordType := if (goIsValidIP ipToUse).2 then "AAAA" else "A"
        let deletes :=
          if record.currentIP ≠ "" then
            let oldRecordType :=
              if (goIsValidIP record.currentIP).2 then "AAAA" else "A"
            if oldRecordType ≠ recordType then
              [DNSCall.deleteRecord record.zoneID hostname oldRecordType]
            else []
          else []
        let upsertCall :=
          DNSCall.upsertRecord record.zoneID hostname recordType ipToUse record.ttl
        if ¬ env.upsertOk then
          ⟨"nohost", false, deletes ++ [upsertCall], some record,
            [v2Log hostname env.now record.currentIP ipToUse sourceIP userAgent "route53_error"]⟩
        else
          let previousIP := record.currentIP
          if ¬ env.dbOk then
            ⟨"nohost", false, deletes ++ [upsertCall], some record,
              [v2Log hostname env.now previousIP ipToUse sourceIP userAgent "db_error"]⟩
          else
            ⟨"good " ++ ipToUse, true, deletes ++ [upsertCall],
              some { record with currentIP := ipToUse, lastUpdated := env.now },
              [v2Log hostname env.now previousIP ipToUse sourceIP userAgent "good"]⟩

/-- A record and matching-token environment used in concrete checks. -/
def sampleRecord : DDNSRecord :=
  { hostname := "home.example.com", zoneID := "Z1", zoneName := "example.com",
    ttl := 60, updateTokenHash := "tok-hash", currentIP := "",
    enabled := true, lastUpdated := 0 }

def plainVerify : String → String → Bool := fun token hash => token ++ "-hash" = hash

def sampleV1Env : V1Env :=
  { verify := plainVerify, rlCount := 1, rlExceeded := false, rlErr := false,
    r53Ok := true, dbOk := true, logOk := true, now := 1000 }

def sampleV2Env : V2Env :=
  { verify := plainVerify, upsertOk := true, dbOk := true, now := 1000 }

/-! ## Rate limiting: `internal/database/ratelimit.go` -/

/-- `RateLimitWindowMinutes = 1`, in seconds. -/
def rateLimitWindowSeconds : Nat := 60

/-- `now.Truncate(RateLimitWindowMinutes * time.Minute)`. -/
def truncateWindow (now : Nat) : Nat :=
  now - now % rateLimitWindowSeconds

structure RateLimitEntryM where
  count : Nat
  windowStart : Nat
deriving Repr, DecidableEq

/-- `Client.IncrementRateLimit` of `internal/database/ratelimit.go`.
First update: atomically `Count := if_not_exists(Count,0)+1` and
`WindowStart := truncate(now)` (returning the new values); then, when the
returned `WindowStart` differs from `truncate(now)`, a second update
resets `Count := 1`.  Both steps are embedded as written in the source;
note the first step already stores the current window start. -/
def incrementRateLimit (now : Nat) (entry? : Option RateLimitEntryM) :
    Nat × RateLimitEntryM :=
  let windowStart := truncateWindow now
  let entry : RateLimitEntryM :=
    { count := (match entry? with | some e => e.count | none => 0) + 1,
      windowStart := windowStart }
  let entry2 :=
    if entry.windowStart ≠ windowStart then
      { count := 1, windowStart := windowStart }
    else entry
  (entry2.count, entry2)

/-- `MaxRequestsPerWindow = 60` of `unnamed/part_008`. -/
def maxRequestsPerWindow : Nat := 60

inductive RLDecision where
  | abuse
  | proceed
deriving Repr, DecidableEq

/-- The decision of `RateLimitMiddleware.DDNSUpdateRateLimit`
(`unnamed/part_008`) given the outcome of the `IncrementRateLimit` call:
on an infrastructure error (`none`) it logs and lets the request through
(`c.Next()`); otherwise `abuse` exactly when `count > MaxRequestsPerWindow`. -/
def ddnsUpdateRateLimit (incr : Option Nat) : RLDecision :=
  match incr with
  | none => .proceed
  | some count => if count > maxRequestsPerWindow then .abuse else .proceed

/-! ## Login lockout: `internal/database/ratelimit.go` -/

def maxLoginAttempts : Nat := 5

/-- `LoginLockoutMinutes = 15`, in seconds. -/
def loginLockoutSeconds : Nat := 15 * 60

/-- `LoginAttempt` state for one key; `lockedUntil = none` models the Go
zero `time.Time`. -/
structure LoginAttemptState where
  failedAttempts : Nat
  lastAttempt : Nat
  lockedUntil : Option Nat
deriving Repr, DecidableEq

/-- `Client.RecordLoginAttempt` of `internal/database/ratelimit.go`.
Success resets the counter and clears the lock; failure increments the
counter (leaving any existing lock untouched) and, at
`FailedAttempts >= MaxLoginAttempts`, sets `LockedUntil := now + 15min`. -/
def recordLoginAttempt (now : Nat) (success : Bool)
    (st? : Option LoginAttemptState) : Option LoginAttemptState :=
  if success then
    some { failedAttempts := 0, lastAttempt := now, lockedUntil := none }
  else
    let st : LoginAttemptState :=
      { failedAttempts := (match st? with | some s => s.failedAttempts | none => 0) + 1,
        lastAttempt := now,
        lockedUntil := match st? with | some s => s.lockedUntil | none => none }
    if st.failedAttempts ≥ maxLoginAttempts then
      some { st with lockedUntil := some (now + loginLockoutSeconds) }
    else some st

/-- `Client.IsLoginLocked` of `internal/database/ratelimit.go`: locked
exactly when the entry exists, `LockedUntil` is non-zero and is after
`now`. -/
def isLoginLocked (now : Nat) (st? : Option LoginAttemptState) : Bool :=
  match st? with
  | none => false
  | some st =>
    match st.lockedUntil with
    | none => false
    | some t => now < t

inductive LoginOutcome where
  | locked
  | badauth
  | success
deriving Repr, DecidableEq

/-- One authentication attempt in the shape of `AuthService.Login`
(`internal/service/auth.go`, and likewise `unnamed/part_002`): the lock
is consulted *before* the credential comparison; a processed attempt is
then recorded, success resetting the state. -/
def loginAttempt (now : Nat) (credentialOk : Bool)
    (st? : Option LoginAttemptState) : LoginOutcome × Option LoginAttemptState :=
  if isLoginLocked now st? then (.locked, st?)
  else if credentialOk then (.success, recordLoginAttempt now true st?)
  else (.badauth, recordLoginAttempt now false st?)

/-! ## Source-IP derivation: `internal/api/handlers/update.go` -/

/-- Go's `strings.Split(s, ",")`: always at least one (possibly empty)
element. -/
def splitComma : List Char → List (List Char)
  | [] => [[]]
  | c :: rest =>
    if c = ',' then [] :: splitComma rest
    else
      match splitComma rest with
      | h :: t => (c :: h) :: t
      | [] => [[c]]

/-- The white-space predicate of Go's `strings.TrimSpace`
(`unicode.IsSpace`, restricted to the Latin-1 range that can occur in a
header value). -/
def isSpaceGo (c : Char) : Bool :=
  c = ' ' ∨ c = '\t' ∨ c = '\n' ∨ c.toNat = 0x0B ∨ c.toNat = 0x0C ∨
    c = '\r' ∨ c.toNat = 0x85 ∨ c.toNat = 0xA0

/-- Go's `strings.TrimSpace`. -/
def trimSpaceGo (cs : List Char) : List Char :=
  ((cs.dropWhile isSpaceGo).reverse.dropWhile isSpaceGo).reverse

/-- `getSourceIP`: first comma-separated element of `X-Forwarded-For`
(when non-empty after trimming), else `X-Real-IP`, else the connection
peer address.  No validation of the chosen value is performed. -/
def getSourceIP (xff xri peerIP : String) : String :=
  let fromXff : Option String :=
    if xff ≠ "" then
      match splitComma xff.data with
      | first :: _ =>
        let clientIP := trimSpaceGo first
        if clientIP ≠ [] then some (String.mk clientIP) else none
      | [] => none
    else none
  match fromXff with
  | some s => s
  | none => if xri ≠ "" then xri else peerIP

/-- `UpdateHandler.HandleUpdate` of `internal/api/handlers/update.go`
(first variant), with Basic-Auth parsing abstracted to its success flag
and extracted token: on parse failure `badauth`, on empty hostname
`nohost`, otherwise the V2 pipeline is invoked with the source address
computed by `getSourceIP`. -/
def handleUpdate (env : V2Env) (record? : Option DDNSRecord) (authOk : Bool)
    (token hostname myip xff xri peerIP userAgent : String) : String :=
  if ¬ authOk then "badauth"
  else if hostname = "" then "nohost"
  else
    (processUpdateV2 env record? hostname myip (getSourceIP xff xri peerIP)
      token userAgent).response

/-- A streak of failed authentication attempts at the given times,
threading the lockout state. -/
def loginFailStreak (times : List Nat) (st? : Option LoginAttemptState) :
    Option LoginAttemptState :=
  times.foldl (fun s t => (loginAttempt t false s).2) st?

/-- Repeated rate-limit increments at the given times, threading the
stored entry. -/
def iterIncrements (times : List Nat) (entry? : Option RateLimitEntryM) :
    Option RateLimitEntryM :=
  times.foldl (fun s t => some (incrementRateLimit t s).2) entry?

/-- A disabled record, otherwise identical to `sampleRecord`. -/
def disabledRecord : DDNSRecord := { sampleRecord with enabled := false }

/-- `sampleRecord` currently bound to an IPv4 address. -/
def v4Record : DDNSRecord := { sampleRecord with currentIP := "1.2.3.4" }

/-- V1 environment whose `IncrementRateLimit` call errors. -/
def rlErrV1Env : V1Env := { sampleV1Env with rlErr := true }

/-- V2 environment whose database write fails (Route 53 upsert still
succeeds). -/
def dbFailV2Env : V2Env := { sampleV2Env with dbOk := false }

/-- V1 environment whose database write fails (Route 53 upsert still
succeeds). -/
def dbFailV1Env : V1Env := { sampleV1Env with dbOk := false }

/-! ## Sanity checks of the embedding on concrete inputs -/

example : goValidateIP "203.0.113.5" = true := by decide
example : goValidateIP "not-an-ip" = false := by decide
example : goValidateIP "1.2.3.4" = true := by decide
example : goValidateIP "256.1.1.1" = false := by decide
example : goValidateIP "01.2.3.4" = false := by decide
example : goIsValidIP "2001:db8::1" = (true, true) := by decide
example : goIsValidIP "203.0.113.5" = (true, false) := by decide
example : goIsValidIP "::ffff:1.2.3.4" = (true, false) := by decide
example : goIsValidIP "::1" = (true, true) := by decide
example : goIsValidIP "2001:db8:::1" = (false, false) := by decide
example : goIsValidIP "1.2.3" = (false, false) := by decide

example :
    (processUpdateV1 sampleV1Env (some sampleRecord) "home.example.com"
      "tok" "203.0.113.5" "203.0.113.5" "ua").code = "good" := by decide

example :
    (processUpdateV2 sampleV2Env (some sampleRecord) "home.example.com"
      "" "203.0.113.5" "tok" "ua").response = "good 203.0.113.5" := by decide

example : getSourceIP "10.0.0.1, 10.0.0.2" "9.9.9.9" "8.8.8.8" = "10.0.0.1" := by decide
example : getSourceIP "" "9.9.9.9" "8.8.8.8" = "9.9.9.9" := by decide
example : getSourceIP "" "" "8.8.8.8" = "8.8.8.8" := by decide
example : getSourceIP " , 10.0.0.2" "9.9.9.9" "8.8.8.8" = "9.9.9.9" := by decide
example : getSourceIP "not-an-ip" "" "8.8.8.8" = "not-an-ip" := by decide

/-! ## Claim theorems -/

theorem splitComma_ne_nil (cs : List Char) : splitComma cs ≠ [] := by
  induction cs with
  | nil => simp [splitComma]
  | cons c rest ih =>
    by_cases hc : c = ','
    · simp [splitComma, hc]
    · simp only [splitComma, if_neg hc]
      cases h : splitComma rest with
      | nil => simp
      | cons a t => simp

/-- C4: from a clean state, five consecutive failed authentication
attempts (any times) are each answered `badauth`; a correct credential
on the fifth attempt — after only four failures — would still have
succeeded; the sixth attempt, with a *correct* credential, inside the
15-minute window opened by the fifth failure is rejected as locked
before any credential comparison; and once the window has elapsed a
correct credential succeeds. -/
theorem loginLockout_after_exactly_five_failures
    (t1 t2 t3 t4 t5 t6 t7 : Nat)
    (h6 : t6 < t5 + loginLockoutSeconds)
    (h7 : t5 + loginLockoutSeconds ≤ t7) :
    (loginAttempt t1 false none).1 = .badauth ∧
    (loginAttempt t2 false (loginFailStreak [t1] none)).1 = .badauth ∧
    (loginAttempt t3 false (loginFailStreak [t1, t2] none)).1 = .badauth ∧
    (loginAttempt t4 false (loginFailStreak [t1, t2, t3] none)).1 = .badauth ∧
    (loginAttempt t5 false (loginFailStreak [t1, t2, t3, t4] none)).1 = .badauth ∧
    (loginAttempt t5 true (loginFailStreak [t1, t2, t3, t4] none)).1 = .success ∧
    (loginAttempt t6 true (loginFailStreak [t1, t2, t3, t4, t5] none)).1 = .locked ∧
    (loginAttempt t7 true
        (loginAttempt t6 true (loginFailStreak [t1, t2, t3, t4, t5] none)).2).1
      = .success := by
  have hs5 : loginFailStreak [t1, t2, t3, t4, t5] none
      = some ⟨5, t5, some (t5 + loginLockoutSeconds)⟩ := rfl
  have h7' : ¬ (t7 < t5 + loginLockoutSeconds) := Nat.not_lt.mpr h7
  refine ⟨rfl, rfl, rfl, rfl, rfl, rfl, ?_, ?_⟩
  · rw [hs5]
    simp [loginAttempt, isLoginLocked, h6]
  · rw [hs5]
    simp [loginAttempt, isLoginLocked, h6, h7']

theorem loginLockout_after_exactly_five_failures_witness :
    (loginAttempt 5 true (loginFailStreak [0, 1, 2, 3, 4] none)).1 = .locked ∧
    (loginAttempt 904 true
        (loginAttempt 5 true (loginFailStreak [0, 1, 2, 3, 4] none)).2).1
      = .success := by
  have h := loginLockout_after_exactly_five_failures 0 1 2 3 4 5 904
    (by decide) (by decide)
  exact ⟨h.2.2.2.2.2.2.1, h.2.2.2.2.2.2.2⟩

/-- C10: when `X-Forwarded-For` is non-empty and its first
comma-separated element is non-blank, that element — trimmed, but not
validated in any way — is the source address `getSourceIP` computes, and
the handler hands exactly that value to the pipeline; `X-Real-IP` and
the peer address are used only as fall-backs; a value that is not an IP
literal is passed through unchanged. -/
theorem getSourceIP_uses_first_forwarded_element
    (env : V2Env) (record? : Option DDNSRecord)
    (token hostname myip xff xri peerIP userAgent : String)
    (hxff : xff ≠ "")
    (hfirst : trimSpaceGo ((splitComma xff.data).headD []) ≠ [])
    (hhost : hostname ≠ "") :
    getSourceIP xff xri peerIP
        = String.mk (trimSpaceGo ((splitComma xff.data).headD [])) ∧
    handleUpdate env record? true token hostname myip xff xri peerIP userAgent
        = (processUpdateV2 env record? hostname myip
            (String.mk (trimSpaceGo ((splitComma xff.data).headD [])))
            token userAgent).response ∧
    (getSourceIP "" "9.9.9.9" "8.8.8.8" = "9.9.9.9" ∧
     getSourceIP "" "" "8.8.8.8" = "8.8.8.8") ∧
    (getSourceIP "not-an-ip" "" "8.8.8.8" = "not-an-ip" ∧
     goValidateIP "not-an-ip" = false) := by
  have hmain : getSourceIP xff xri peerIP
      = String.mk (trimSpaceGo ((splitComma xff.data).headD [])) := by
    cases hsp : splitComma xff.data with
    | nil => exact absurd hsp (splitComma_ne_nil _)
    | cons a t =>
      rw [hsp] at hfirst
      simp only [List.headD_cons] at hfirst
      simp [getSourceIP, hxff, hsp, hfirst]
  refine ⟨hmain, ?_, ⟨by decide, by decide⟩, ⟨by decide, by decide⟩⟩
  simp [handleUpdate, hhost, hmain]

theorem getSourceIP_uses_first_forwarded_element_witness :
    getSourceIP "203.0.113.5, 10.0.0.1" "" "9.9.9.9" = "203.0.113.5" := by
  have h := getSourceIP_uses_first_forwarded_element sampleV2Env
    (some sampleRecord) "tok" "home.example.com" "" "203.0.113.5, 10.0.0.1"
    "" "9.9.9.9" "ua" (by decide) (by decide) (by decide)
  rw [h.1]
  decide

/-- C1 (amended): in the `part_003` pipeline the anti-spoofing rejection
exists but fires only after authentication (and address-format
validation): for an enabled record and a well-formed non-empty claimed
address differing from the source address, a *correct* credential gives
`abuse` with no DNS call, while an *incorrect* credential gives
`badauth` (again with no DNS call) — not `abuse`. -/
theorem processUpdateV2_antispoof_after_auth
    (env : V2Env) (rec : DDNSRecord)
    (hostname providedIP sourceIP token userAgent : String)
    (hen : rec.enabled = true)
    (hne : providedIP ≠ "")
    (hval : (goIsValidIP providedIP).1 = true)
    (hmis : providedIP ≠ sourceIP) :
    (env.verify token rec.updateTokenHash = true →
      (processUpdateV2 env (some rec) hostname providedIP sourceIP token
          userAgent).response = "abuse" ∧
      (processUpdateV2 env (some rec) hostname providedIP sourceIP token
          userAgent).dnsCalls = []) ∧
    (env.verify token rec.updateTokenHash = false →
      (processUpdateV2 env (some rec) hostname providedIP sourceIP token
          userAgent).response = "badauth" ∧
      (processUpdateV2 env (some rec) hostname providedIP sourceIP token
          userAgent).dnsCalls = []) := by
  constructor
  · intro hv
    constructor <;> simp [processUpdateV2, hen, hv, hne, hval, hmis]
  · intro hv
    constructor <;> simp [processUpdateV2, hen, hv]

theorem processUpdateV2_antispoof_after_auth_witness :
    ((processUpdateV2 sampleV2Env (some sampleRecord) "home.example.com"
        "5.6.7.8" "1.2.3.4" "tok" "ua").response = "abuse" ∧
     (processUpdateV2 sampleV2Env (some sampleRecord) "home.example.com"
        "5.6.7.8" "1.2.3.4" "tok" "ua").dnsCalls = []) ∧
    ((processUpdateV2 sampleV2Env (some sampleRecord) "home.example.com"
        "5.6.7.8" "1.2.3.4" "WRONG" "ua").response = "badauth" ∧
     (processUpdateV2 sampleV2Env (some sampleRecord) "home.example.com"
        "5.6.7.8" "1.2.3.4" "WRONG" "ua").dnsCalls = []) := by
  refine ⟨?_, ?_⟩
  · exact (processUpdateV2_antispoof_after_auth sampleV2Env sampleRecord
      "home.example.com" "5.6.7.8" "1.2.3.4" "tok" "ua"
      (by decide) (by decide) (by decide) (by decide)).1 (by decide)
  · exact (processUpdateV2_antispoof_after_auth sampleV2Env sampleRecord
      "home.example.com" "5.6.7.8" "1.2.3.4" "WRONG" "ua"
      (by decide) (by decide) (by decide) (by decide)).2 (by decide)

/-- C3 (amended): in the `part_003` pipeline a disabled record really is
indistinguishable from a nonexistent hostname — `nohost`, no DNS call,
for every credential; in the `update.go` pipeline the equivalence holds
only when the supplied credential matches the stored hash. -/
theorem disabled_record_indistinguishability
    (env : V2Env) (rec : DDNSRecord)
    (hostname providedIP sourceIP token userAgent : String)
    (env1 : V1Env) (rec1 : DDNSRecord)
    (hostname1 token1 ip1 sourceIP1 userAgent1 : String)
    (hdis : rec.enabled = false)
    (hdis1 : rec1.enabled = false)
    (hv1 : env1.verify token1 rec1.updateTokenHash = true)
    (hip1 : goValidateIP ip1 = true) :
    (processUpdateV2 env (some rec) hostname providedIP sourceIP token
        userAgent).response
      = (processUpdateV2 env none hostname providedIP sourceIP token
          userAgent).response ∧
    (processUpdateV2 env (some rec) hostname providedIP sourceIP token
        userAgent).response = "nohost" ∧
    (processUpdateV2 env (some rec) hostname providedIP sourceIP token
        userAgent).dnsCalls
      = (processUpdateV2 env none hostname providedIP sourceIP token
          userAgent).dnsCalls ∧
    (processUpdateV1 env1 (some rec1) hostname1 token1 ip1 sourceIP1
        userAgent1).code = "nohost" ∧
    (processUpdateV1 env1 none hostname1 token1 ip1 sourceIP1
        userAgent1).code = "nohost" := by
  refine ⟨?_, ?_, ?_, ?_, ?_⟩
  · simp [processUpdateV2, hdis]
  · simp [processUpdateV2, hdis]
  · simp [processUpdateV2, hdis]
  · simp [processUpdateV1, hdis1, hv1, hip1]
  · simp [processUpdateV1, hip1]

theorem disabled_record_indistinguishability_witness :
    (processUpdateV2 sampleV2Env (some disabledRecord) "home.example.com"
        "" "203.0.113.5" "WRONG" "ua").response = "nohost" ∧
    (processUpdateV2 sampleV2Env none "home.example.com"
        "" "203.0.113.5" "WRONG" "ua").response = "nohost" ∧
    (processUpdateV1 sampleV1Env (some disabledRecord) "home.example.com"
        "tok" "203.0.113.5" "203.0.113.5" "ua").code = "nohost" := by
  have h := disabled_record_indistinguishability sampleV2Env disabledRecord
    "home.example.com" "" "203.0.113.5" "WRONG" "ua"
    sampleV1Env disabledRecord "home.example.com" "tok" "203.0.113.5"
    "203.0.113.5" "ua" (by decide) (by decide) (by decide) (by decide)
  exact ⟨h.2.1, h.2.1 ▸ h.1.symm ▸ h.2.1, h.2.2.2.1⟩

/-- C5 (amended): the rate-limit *middleware* fails open — on a limiter
infrastructure error the request proceeds — but the `update.go`
pipeline fails closed: when its `IncrementRateLimit` call errors, an
otherwise processable request (enabled record, correct credential,
well-formed address) is answered with the error outcome `911`, no DNS
call is issued and the record is left unchanged. -/
theorem limiter_error_middleware_open_pipeline_closed
    (env : V1Env) (rec : DDNSRecord)
    (hostname token ip sourceIP userAgent : String)
    (herr : env.rlErr = true)
    (hip : goValidateIP ip = true)
    (hv : env.verify token rec.updateTokenHash = true)
    (hen : rec.enabled = true) :
    ddnsUpdateRateLimit none = .proceed ∧
    (processUpdateV1 env (some rec) hostname token ip sourceIP
        userAgent).code = "911" ∧
    (processUpdateV1 env (some rec) hostname token ip sourceIP
        userAgent).dnsCalls = [] ∧
    (processUpdateV1 env (some rec) hostname token ip sourceIP
        userAgent).stored = some rec := by
  refine ⟨rfl, ?_, ?_, ?_⟩ <;> simp [processUpdateV1, herr, hip, hv, hen]

theorem limiter_error_middleware_open_pipeline_closed_witness :
    ddnsUpdateRateLimit none = .proceed ∧
    (processUpdateV1 rlErrV1Env (some sampleRecord) "home.example.com"
        "tok" "203.0.113.5" "203.0.113.5" "ua").code = "911" := by
  have h := limiter_error_middleware_open_pipeline_closed rlErrV1Env
    sampleRecord "home.example.com" "tok" "203.0.113.5" "203.0.113.5" "ua"
    (by decide) (by decide) (by decide) (by decide)
  exact ⟨h.1, h.2.1⟩

/-- C7 (amended): the two pipelines disagree on a store-write failure
after a successful DNS write.  `update.go` logs a warning and still
answers `good` (leaving the stored record unchanged); `part_003`
answers `nohost` with an error — although the upsert was issued — and
records a `db_error` event. -/
theorem store_failure_after_dns_write_variants
    (env1 : V1Env) (rec1 : DDNSRecord)
    (hostname1 token1 ip1 sourceIP1 ua1 : String)
    (env : V2Env) (rec : DDNSRecord) (hostname sourceIP token ua : String)
    (h1ip : goValidateIP ip1 = true)
    (h1v : env1.verify token1 rec1.updateTokenHash = true)
    (h1en : rec1.enabled = true)
    (h1err : env1.rlErr = false) (h1ex : env1.rlExceeded = false)
    (h1chg : rec1.currentIP ≠ ip1)
    (h1r53 : env1.r53Ok = true) (h1db : env1.dbOk = false)
    (hen : rec.enabled = true)
    (hv : env.verify token rec.updateTokenHash = true)
    (hval : (goIsValidIP sourceIP).1 = true)
    (hchg : rec.currentIP ≠ sourceIP)
    (hfam : rec.currentIP = "" ∨
      (goIsValidIP rec.currentIP).2 = (goIsValidIP sourceIP).2)
    (hup : env.upsertOk = true) (hdb : env.dbOk = false) :
    (processUpdateV1 env1 (some rec1) hostname1 token1 ip1 sourceIP1
        ua1).code = "good" ∧
    (processUpdateV1 env1 (some rec1) hostname1 token1 ip1 sourceIP1
        ua1).success = true ∧
    (processUpdateV1 env1 (some rec1) hostname1 token1 ip1 sourceIP1
        ua1).stored = some rec1 ∧
    (processUpdateV2 env (some rec) hostname "" sourceIP token
        ua).response = "nohost" ∧
    (processUpdateV2 env (some rec) hostname "" sourceIP token
        ua).ok = false ∧
    (processUpdateV2 env (some rec) hostname "" sourceIP token
        ua).dnsCalls
      = [DNSCall.upsertRecord rec.zoneID hostname
          (if (goIsValidIP sourceIP).2 then "AAAA" else "A") sourceIP rec.ttl] ∧
    (processUpdateV2 env (some rec) hostname "" sourceIP token ua).logs
      = [v2Log hostname env.now rec.currentIP sourceIP sourceIP ua
          "db_error"] := by
  have hres : processUpdateV2 env (some rec) hostname "" sourceIP token ua
      = ⟨"nohost", false,
         [DNSCall.upsertRecord rec.zoneID hostname
           (if (goIsValidIP sourceIP).2 then "AAAA" else "A") sourceIP
           rec.ttl],
         some rec,
         [v2Log hostname env.now rec.currentIP sourceIP sourceIP ua
           "db_error"]⟩ := by
    rcases hfam with hfm | hfm
    · have hchg' : ("" : String) ≠ sourceIP := by
        rw [← hfm]; exact hchg
      simp [processUpdateV2, hen, hv, hval, hup, hdb, hfm, hchg']
    · simp [processUpdateV2, hen, hv, hval, hup, hdb, hchg, hfm]
  refine ⟨?_, ?_, ?_, by rw [hres], by rw [hres], by rw [hres], by rw [hres]⟩
  · simp [processUpdateV1, h1ip, h1v, h1en, h1err, h1ex, h1chg, h1r53]
  · simp [processUpdateV1, h1ip, h1v, h1en, h1err, h1ex, h1chg, h1r53]
  · simp [processUpdateV1, h1ip, h1v, h1en, h1err, h1ex, h1chg, h1r53, h1db]

theorem store_failure_after_dns_write_variants_witness :
    (processUpdateV1 dbFailV1Env (some sampleRecord) "home.example.com"
        "tok" "203.0.113.5" "203.0.113.5" "ua").code = "good" ∧
    (processUpdateV2 dbFailV2Env (some sampleRecord) "home.example.com"
        "" "203.0.113.5" "tok" "ua").response = "nohost" := by
  have h := store_failure_after_dns_write_variants dbFailV1Env sampleRecord
    "home.example.com" "tok" "203.0.113.5" "203.0.113.5" "ua"
    dbFailV2Env sampleRecord "home.example.com" "203.0.113.5" "tok" "ua"
    (by decide) (by decide) (by decide) (by decide) (by decide) (by decide)
    (by decide) (by decide) (by decide) (by decide) (by decide) (by decide)
    (Or.inl rfl) (by decide) (by decide)
  exact ⟨h.1, h.2.2.2.1⟩

/-- C2: for an enabled record, a correct credential and a well-formed
candidate address that differs from the record's current bound address,
processing the same candidate twice in a row — threading the stored
record, with no remote failure and no rate limiting — answers `good`
then `nochg`, and exactly one DNS mutation call is issued across the two
requests (the second skips mutation because the candidate equals the
now-bound address).  Both pipeline variants are covered. -/
theorem same_candidate_twice_good_then_nochg :
    (∀ (env1 env2 : V1Env) (rec : DDNSRecord)
        (hostname token ip sourceIP ua : String),
      goValidateIP ip = true →
      env1.verify token rec.updateTokenHash = true →
      env2.verify token rec.updateTokenHash = true →
      rec.enabled = true →
      env1.rlErr = false → env1.rlExceeded = false →
      env2.rlErr = false → env2.rlExceeded = false →
      env1.r53Ok = true → env1.dbOk = true →
      rec.currentIP ≠ ip →
        (processUpdateV1 env1 (some rec) hostname token ip sourceIP
            ua).code = "good" ∧
        (processUpdateV1 env2
            (processUpdateV1 env1 (some rec) hostname token ip sourceIP
              ua).stored hostname token ip sourceIP ua).code = "nochg" ∧
        (processUpdateV1 env1 (some rec) hostname token ip sourceIP
            ua).dnsCalls.length
          + (processUpdateV1 env2
              (processUpdateV1 env1 (some rec) hostname token ip sourceIP
                ua).stored hostname token ip sourceIP ua).dnsCalls.length
          = 1) ∧
    (∀ (env1 env2 : V2Env) (rec : DDNSRecord)
        (hostname providedIP sourceIP token ua : String),
      rec.enabled = true →
      env1.verify token rec.updateTokenHash = true →
      env2.verify token rec.updateTokenHash = true →
      (providedIP = "" ∨ providedIP = sourceIP) →
      (goIsValidIP sourceIP).1 = true →
      env1.upsertOk = true → env1.dbOk = true →
      rec.currentIP ≠ sourceIP →
      (rec.currentIP = "" ∨
        (goIsValidIP rec.currentIP).2 = (goIsValidIP sourceIP).2) →
        (processUpdateV2 env1 (some rec) hostname providedIP sourceIP
            token ua).response = "good " ++ sourceIP ∧
        (processUpdateV2 env2
            (processUpdateV2 env1 (some rec) hostname providedIP sourceIP
              token ua).stored hostname providedIP sourceIP token
            ua).response = "nochg " ++ sourceIP ∧
        (processUpdateV2 env1 (some rec) hostname providedIP sourceIP
            token ua).dnsCalls.length
          + (processUpdateV2 env2
              (processUpdateV2 env1 (some rec) hostname providedIP
                sourceIP token ua).stored hostname providedIP sourceIP
              token ua).dnsCalls.length = 1) := by
  constructor
  · intro env1 env2 rec hostname token ip sourceIP ua hip hv1 hv2 hen
      herr1 hex1 herr2 hex2 hr53 hdb hchg
    have hres1 : processUpdateV1 env1 (some rec) hostname token ip
        sourceIP ua
        = ⟨true, "good", ip,
           [DNSCall.updateRecord rec.zoneID hostname ip rec.ttl],
           some { rec with currentIP := ip, lastUpdated := env1.now },
           if env1.logOk then
             [{ pk := "LOG#" ++ ip, sk := env1.now,
                previousIP := rec.currentIP, newIP := ip,
                sourceIP := sourceIP, userAgent := ua,
                status := "success" }]
           else []⟩ := by
      simp [processUpdateV1, createUpdateLogV1, hip, hv1, hen, herr1,
        hex1, hchg, hr53, hdb]
    have hres2 : processUpdateV1 env2
        (some { rec with currentIP := ip, lastUpdated := env1.now })
        hostname token ip sourceIP ua
        = ⟨true, "nochg", ip, [],
           some { rec with currentIP := ip, lastUpdated := env1.now },
           []⟩ := by
      simp [processUpdateV1, hip, hv2, hen, herr2, hex2]
    rw [hres1]
    refine ⟨rfl, ?_, ?_⟩ <;> simp [hres2]
  · intro env1 env2 rec hostname providedIP sourceIP token ua hen hv1
      hv2 hsp hval hup hdb hchg hfam
    have hres1 : processUpdateV2 env1 (some rec) hostname providedIP
        sourceIP token ua
        = ⟨"good " ++ sourceIP, true,
           [DNSCall.upsertRecord rec.zoneID hostname
             (if (goIsValidIP sourceIP).2 then "AAAA" else "A") sourceIP
             rec.ttl],
           some { rec with currentIP := sourceIP, lastUpdated := env1.now },
           [v2Log hostname env1.now rec.currentIP sourceIP sourceIP ua
             "good"]⟩ := by
      rcases hsp with rfl | rfl <;>
        simp [processUpdateV2, hen, hv1, hval, hchg, hup, hdb] <;>
        exact fun hne =>
          hfam.elim (fun hfm => absurd hfm hne) (fun hfm => by rw [hfm])
    have hres2 : processUpdateV2 env2
        (some { rec with currentIP := sourceIP, lastUpdated := env1.now })
        hostname providedIP sourceIP token ua
        = ⟨"nochg " ++ sourceIP, true, [],
           some { rec with currentIP := sourceIP, lastUpdated := env1.now },
           [v2Log hostname env2.now sourceIP sourceIP sourceIP ua
             "nochg"]⟩ := by
      rcases hsp with rfl | rfl <;>
        simp [processUpdateV2, hen, hv2, hval]
    rw [hres1]
    refine ⟨rfl, ?_, ?_⟩ <;> simp [hres2]

theorem same_candidate_twice_good_then_nochg_witness :
    (processUpdateV1 sampleV1Env (some sampleRecord) "home.example.com"
        "tok" "203.0.113.5" "203.0.113.5" "ua").code = "good" ∧
    (processUpdateV1 sampleV1Env
        (processUpdateV1 sampleV1Env (some sampleRecord)
          "home.example.com" "tok" "203.0.113.5" "203.0.113.5"
          "ua").stored "home.example.com" "tok" "203.0.113.5"
        "203.0.113.5" "ua").code = "nochg" ∧
    (processUpdateV1 sampleV1Env (some sampleRecord) "home.example.com"
        "tok" "203.0.113.5" "203.0.113.5" "ua").dnsCalls.length
      + (processUpdateV1 sampleV1Env
          (processUpdateV1 sampleV1Env (some sampleRecord)
            "home.example.com" "tok" "203.0.113.5" "203.0.113.5"
            "ua").stored "home.example.com" "tok" "203.0.113.5"
          "203.0.113.5" "ua").dnsCalls.length = 1 := by
  exact same_candidate_twice_good_then_nochg.1 sampleV1Env sampleV1Env
    sampleRecord "home.example.com" "tok" "203.0.113.5" "203.0.113.5"
    "ua" (by decide) (by decide) (by decide) (by decide) (by decide)
    (by decide) (by decide) (by decide) (by decide) (by decide)
    (by decide)

/-- C8 (amended): in the `part_003` pipeline, when the record's previous
bound address is non-empty and of the opposite address family from the
candidate, the DNS calls are exactly a best-effort delete of the
old-type record followed by the upsert of the new-type record — in that
order, whatever the outcome of the subsequent remote calls. -/
theorem processUpdateV2_family_change_delete_before_upsert
    (env : V2Env) (rec : DDNSRecord)
    (hostname providedIP sourceIP token userAgent : String)
    (hen : rec.enabled = true)
    (hv : env.verify token rec.updateTokenHash = true)
    (hsp : providedIP = "" ∨ providedIP = sourceIP)
    (hval : (goIsValidIP sourceIP).1 = true)
    (hold : rec.currentIP ≠ "")
    (hfam : (goIsValidIP rec.currentIP).2 ≠ (goIsValidIP sourceIP).2) :
    (processUpdateV2 env (some rec) hostname providedIP sourceIP token
        userAgent).dnsCalls
      = [DNSCall.deleteRecord rec.zoneID hostname
           (if (goIsValidIP rec.currentIP).2 then "AAAA" else "A"),
         DNSCall.upsertRecord rec.zoneID hostname
           (if (goIsValidIP sourceIP).2 then "AAAA" else "A") sourceIP
           rec.ttl] := by
  have hchg : rec.currentIP ≠ sourceIP := fun he => hfam (he ▸ rfl)
  have htype : (if (goIsValidIP rec.currentIP).2 then ("AAAA" : String) else "A")
      ≠ (if (goIsValidIP sourceIP).2 then ("AAAA" : String) else "A") := by
    intro he
    apply hfam
    rcases Bool.eq_false_or_eq_true (goIsValidIP rec.currentIP).2 with hb1 | hb1 <;>
      rcases Bool.eq_false_or_eq_true (goIsValidIP sourceIP).2 with hb2 | hb2 <;>
      rw [hb1, hb2] at he ⊢ <;> simp_all
  rcases hsp with rfl | rfl <;>
    by_cases hup : env.upsertOk <;> by_cases hdb : env.dbOk <;>
      simp [processUpdateV2, hen, hv, hval, hchg, hold, htype, hup, hdb]

theorem processUpdateV2_family_change_delete_before_upsert_witness :
    (processUpdateV2 sampleV2Env (some v4Record) "home.example.com" ""
        "2001:db8::1" "tok" "ua").dnsCalls
      = [DNSCall.deleteRecord "Z1" "home.example.com" "A",
         DNSCall.upsertRecord "Z1" "home.example.com" "AAAA" "2001:db8::1"
           60] := by
  have h := processUpdateV2_family_change_delete_before_upsert sampleV2Env
    v4Record "home.example.com" "" "2001:db8::1" "tok" "ua"
    (by decide) (by decide) (Or.inl rfl) (by decide) (by decide) (by decide)
  rw [h]
  decide

/-- C6: the rate-limit window never starts fresh.  The first conjunct
shows the reset branch of `IncrementRateLimit` is unreachable — the
atomic update has already overwritten `WindowStart` with the current
window before the comparison — so for every existing counter the new
count is the old count plus one, whatever the time.  The rest evaluates
the concrete scenario: a key whose counter reached 61 inside the window
starting at 0 answers `abuse` (count 61 > 60), and a request in the next
window (t = 60) still yields count 62 — not a fresh count of 1 — and is
still answered `abuse`. -/
theorem incrementRateLimit_never_resets_window :
    (∀ (now : Nat) (e : RateLimitEntryM),
      (incrementRateLimit now (some e)).1 = e.count + 1 ∧
      (incrementRateLimit now (some e)).2.windowStart = truncateWindow now) ∧
    iterIncrements (List.replicate 61 0) none = some ⟨61, 0⟩ ∧
    ddnsUpdateRateLimit (some 61) = .abuse ∧
    (incrementRateLimit 60 (some ⟨61, 0⟩)).1 = 62 ∧
    (incrementRateLimit 60 (some ⟨61, 0⟩)).2.windowStart = 60 ∧
    ddnsUpdateRateLimit (some 62) = .abuse := by
  refine ⟨fun now e => ?_, by decide, by decide, by decide, by decide, by decide⟩
  simp [incrementRateLimit]

/-- C9: the appended update event is not retrievable by hostname.  The
V1 pipeline processes a successful update for `home.example.com`
(outcome `good`) and hands its event to `CreateUpdateLog`, which stores
it under partition key `"LOG#" + NewIP` — `LOG#203.0.113.5` — although
the caller had set `LOG#home.example.com`; `GetUpdateLogs` for the
hostname therefore returns nothing, while querying the *address* finds
the event. -/
theorem createUpdateLog_keyed_by_ip_not_hostname :
    (processUpdateV1 sampleV1Env (some sampleRecord) "home.example.com"
        "tok" "203.0.113.5" "203.0.113.5" "ua").code = "good" ∧
    (processUpdateV1 sampleV1Env (some sampleRecord) "home.example.com"
        "tok" "203.0.113.5" "203.0.113.5" "ua").logs
      = [{ pk := "LOG#203.0.113.5", sk := 1000, previousIP := "",
           newIP := "203.0.113.5", sourceIP := "203.0.113.5",
           userAgent := "ua", status := "success" }] ∧
    getUpdateLogsV1 "home.example.com" 10
      (processUpdateV1 sampleV1Env (some sampleRecord) "home.example.com"
        "tok" "203.0.113.5" "203.0.113.5" "ua").logs = [] ∧
    getUpdateLogsV1 "203.0.113.5" 10
      (processUpdateV1 sampleV1Env (some sampleRecord) "home.example.com"
        "tok" "203.0.113.5" "203.0.113.5" "ua").logs ≠ [] := by
  refine ⟨by decide, by decide, by decide, by decide⟩

/-- C1 (counterexample): the `update.go` pipeline performs no
anti-spoofing comparison.  With a correct credential and a well-formed
`myip = 5.6.7.8` that differs from the source address `1.2.3.4`, the
outcome is `good` — not `abuse` — and a DNS upsert *is* issued. -/
theorem processUpdateV1_no_antispoof_check :
    (processUpdateV1 sampleV1Env (some sampleRecord) "home.example.com"
        "tok" "5.6.7.8" "1.2.3.4" "ua").code = "good" ∧
    (processUpdateV1 sampleV1Env (some sampleRecord) "home.example.com"
        "tok" "5.6.7.8" "1.2.3.4" "ua").dnsCalls
      = [DNSCall.updateRecord "Z1" "home.example.com" "5.6.7.8" 60] := by
  refine ⟨by decide, by decide⟩

/-- C3 (counterexample): in the `update.go` pipeline the token is
verified *before* the enabled flag, so a wrong credential against a
disabled record answers `badauth`, while the same request against a
nonexistent hostname answers `nohost` — the two are distinguishable. -/
theorem processUpdateV1_disabled_leaks_badauth :
    (processUpdateV1 sampleV1Env (some disabledRecord) "home.example.com"
        "WRONG" "203.0.113.5" "203.0.113.5" "ua").code = "badauth" ∧
    (processUpdateV1 sampleV1Env none "home.example.com"
        "WRONG" "203.0.113.5" "203.0.113.5" "ua").code = "nohost" ∧
    ("badauth" : String) ≠ "nohost" := by
  refine ⟨by decide, by decide, by decide⟩

/-- C5 (counterexample): the `update.go` pipeline fails *closed* on a
limiter infrastructure error: the very request that yields `good` when
the limiter works is answered with the error outcome `911` — and no DNS
call is made — when `IncrementRateLimit` errors. -/
theorem processUpdateV1_fails_closed_on_limiter_error :
    (processUpdateV1 rlErrV1Env (some sampleRecord) "home.example.com"
        "tok" "203.0.113.5" "203.0.113.5" "ua").code = "911" ∧
    (processUpdateV1 rlErrV1Env (some sampleRecord) "home.example.com"
        "tok" "203.0.113.5" "203.0.113.5" "ua").dnsCalls = [] ∧
    (processUpdateV1 sampleV1Env (some sampleRecord) "home.example.com"
        "tok" "203.0.113.5" "203.0.113.5" "ua").code = "good" := by
  refine ⟨by decide, by decide, by decide⟩

/-- C7 (counterexample): in the `part_003` pipeline a database-write
failure after a *successful* Route 53 upsert is reported to the caller
as `nohost` with an error — not as the success outcome `good` — even
though the DNS upsert was issued. -/
theorem processUpdateV2_db_failure_reports_error :
    (processUpdateV2 dbFailV2Env (some sampleRecord) "home.example.com"
        "" "203.0.113.5" "tok" "ua").response = "nohost" ∧
    (processUpdateV2 dbFailV2Env (some sampleRecord) "home.example.com"
        "" "203.0.113.5" "tok" "ua").ok = false ∧
    (processUpdateV2 dbFailV2Env (some sampleRecord) "home.example.com"
        "" "203.0.113.5" "tok" "ua").dnsCalls
      = [DNSCall.upsertRecord "Z1" "home.example.com" "A" "203.0.113.5" 60] := by
  refine ⟨by decide, by decide, by decide⟩

/-- C8 (counterexample): the `update.go` pipeline issues no delete on an
address-family transition.  A record currently bound to the IPv4
address `1.2.3.4`, updated to the IPv6 address `2001:db8::1`, produces
exactly one DNS call — the upsert — and no `deleteRecord` call. -/
theorem processUpdateV1_no_delete_on_family_change :
    (processUpdateV1 sampleV1Env (some v4Record) "home.example.com"
        "tok" "2001:db8::1" "2001:db8::1" "ua").code = "good" ∧
    (processUpdateV1 sampleV1Env (some v4Record) "home.example.com"
        "tok" "2001:db8::1" "2001:db8::1" "ua").dnsCalls
      = [DNSCall.updateRecord "Z1" "home.example.com" "2001:db8::1" 60] := by
  refine ⟨by decide, by decide⟩

end DDNS
